import Mathlib

/-!
Verification of the weather ETL pipeline and dashboard read path.

This file gives a shallow embedding of the two source modules:

* `dags/weather_pipeline.py` — the ETL DAG: `transform` (row normalization
  from the raw nested API document), `_ensure_schema_exists` /
  `_ensure_table_exists` (schema provisioning), `load` (append-only write).
* `app.py` — the Streamlit dashboard read path: `load_data` (time-ranged,
  optionally city-filtered query ordered by `collection_timestamp`),
  `c_to_f` (display unit conversion), the hourly resample-and-mean
  aggregation, and the `main` flow that selects the latest row or renders
  a "no data" state.

Modelling conventions: Python/SQL floats are embedded as `ℚ`; timestamps
are epoch seconds (`Nat` for wall-clock collection timestamps, `Int` where
a UTC offset may be added); a pandas column that is absent from the
flattened frame is an `Option` field holding `none`; pandas/Python
exceptions (`KeyError` on a missing column, `IndexError` on an empty list)
are an explicit error type returned by `Except`.
-/

/-- One weather-condition descriptor, the element shape of the raw
document's `weather` list: `weather[0] = {id, main, description, icon}`. -/
structure WeatherCond where
  id : Int
  main : String
  description : String
  icon : String
  deriving DecidableEq

/-- The raw API observation as seen by `transform` after
`pd.json_normalize` flattening (`weather_pipeline.py`, `transform`).
Each field is the flattened column of the same dotted JSON path; `none`
models a key that is absent from the document, hence a column absent from
the frame. -/
structure RawObservation where
  name : Option String
  main_temp : Option ℚ
  main_humidity : Option ℚ
  main_feels_like : Option ℚ
  main_temp_min : Option ℚ
  main_temp_max : Option ℚ
  main_pressure : Option ℚ
  wind_speed : Option ℚ
  wind_deg : Option ℚ
  coord_lat : Option ℚ
  coord_lon : Option ℚ
  weather : Option (List WeatherCond)
  sys_id : Option Int
  sys_country : Option String
  sys_sunrise : Option Int
  sys_sunset : Option Int
  timezone : Option Int
  deriving DecidableEq

/-- Errors `transform` can raise: pandas raises `KeyError` when a column
that the code indexes is missing, and `IndexError` when `[0]` is applied
to the empty `weather` list. -/
inductive TransformError where
  | keyError
  | indexError
  deriving DecidableEq

/-- The flat frame `df_transformed` that `transform` writes to the clean
CSV and `load` appends to the table.  Fields that `transform` copies
through the `available_cols` filter are `Option`s: a column missing from
the input frame is simply not in the output (`none`).  The condition
fields and the sunrise/sunset fields are mandatory because `transform`
indexes those columns directly (raising on absence) before the filter. -/
structure TransformedRow where
  city : Option String
  temperature_k : Option ℚ
  humidity : Option ℚ
  thermal_sensation_k : Option ℚ
  temp_min_k : Option ℚ
  temp_max_k : Option ℚ
  pressure : Option ℚ
  wind_speed : Option ℚ
  wind_direction : Option ℚ
  latitude : Option ℚ
  longitude : Option ℚ
  weather_id : Int
  weather_main : String
  weather_description : String
  weather_icon : String
  sys_id : Option Int
  sys_country : Option String
  sys_sunrise : Int
  sys_sunset : Int
  collection_timestamp : Nat
  temperature_c : Option ℚ
  thermal_sensation_c : Option ℚ
  temp_min_c : Option ℚ
  temp_max_c : Option ℚ
  deriving DecidableEq

/-- Embedding of `transform` (`weather_pipeline.py` lines 101-161).
`now` is the wall clock read by `pd.Timestamp.now()`.

Step by step against the source:
* `df['weather'][0][0]`: `KeyError` if the `weather` column is absent,
  `IndexError` if the list is empty, else the single condition entry `w`.
* `weather_icon` is the fixed URL template around `w.icon`.
* `df['sys.sunrise'] + df['timezone']` (and sunset): `KeyError` if any of
  those columns is absent, else epoch + offset; `pd.to_datetime(..., 's')`
  with `.round('ms')` is the identity on whole seconds, so the stored
  timestamp is the shifted epoch itself.
* `collection_timestamp = pd.Timestamp.now()` is `now`.
* `available_cols = {k: v for k, v in columns_to_keep.items() if k in
  df.columns}` keeps only the columns present: a missing source column is
  dropped from the output without error (`none` stays `none`).
* the Celsius loop runs over the output columns whose name contains
  `_k` — exactly `temperature_k`, `thermal_sensation_k`, `temp_min_k`,
  `temp_max_k` — and adds `col.replace('_k', '_c')` as `col - 273.15`;
  a `_k` column that was dropped produces no `_c` column. -/
def transform (now : Nat) (raw : RawObservation) : Except TransformError TransformedRow :=
  match raw.weather with
  | none => .error .keyError
  | some [] => .error .indexError
  | some (w :: _) =>
    match raw.sys_sunrise, raw.sys_sunset, raw.timezone with
    | some sunrise, some sunset, some tz =>
        .ok {
          city := raw.name
          temperature_k := raw.main_temp
          humidity := raw.main_humidity
          thermal_sensation_k := raw.main_feels_like
          temp_min_k := raw.main_temp_min
          temp_max_k := raw.main_temp_max
          pressure := raw.main_pressure
          wind_speed := raw.wind_speed
          wind_direction := raw.wind_deg
          latitude := raw.coord_lat
          longitude := raw.coord_lon
          weather_id := w.id
          weather_main := w.main
          weather_description := w.description
          weather_icon := "https://openweathermap.org/img/wn/" ++ w.icon ++ "@2x.png"
          sys_id := raw.sys_id
          sys_country := raw.sys_country
          sys_sunrise := sunrise + tz
          sys_sunset := sunset + tz
          collection_timestamp := now
          temperature_c := raw.main_temp.map (fun k => k - 273.15)
          thermal_sensation_c := raw.main_feels_like.map (fun k => k - 273.15)
          temp_min_c := raw.main_temp_min.map (fun k => k - 273.15)
          temp_max_c := raw.main_temp_max.map (fun k => k - 273.15) }
    | _, _, _ => .error .keyError

/-- A raw observation with every column the pipeline reads present and a
non-empty condition list: the shape the provider contract guarantees. -/
def RawObservation.valid (raw : RawObservation) : Bool :=
  raw.name.isSome && raw.main_temp.isSome && raw.main_humidity.isSome &&
  raw.main_feels_like.isSome && raw.main_temp_min.isSome && raw.main_temp_max.isSome &&
  raw.coord_lat.isSome && raw.coord_lon.isSome &&
  (match raw.weather with | some (_ :: _) => true | _ => false) &&
  raw.sys_sunrise.isSome && raw.sys_sunset.isSome && raw.timezone.isSome

/-- One persisted row of `weather.weather_data` as the dashboard reads it
back (`SELECT *` with lowercased column names, `app.py` `load_data`).
`pressure`, `wind_speed`, `wind_direction` are the three nullable columns
of the DDL; every other column is `NOT NULL`. The surrogate `id` key is
storage-assigned and plays no role in any claim, so it is omitted. -/
structure WeatherRow where
  city : String
  temperature_k : ℚ
  humidity : ℚ
  thermal_sensation_k : ℚ
  temp_min_k : ℚ
  temp_max_k : ℚ
  pressure : Option ℚ
  wind_speed : Option ℚ
  wind_direction : Option ℚ
  latitude : ℚ
  longitude : ℚ
  temperature_c : ℚ
  thermal_sensation_c : ℚ
  temp_min_c : ℚ
  temp_max_c : ℚ
  weather_id : Int
  weather_main : String
  weather_description : String
  weather_icon : String
  sys_id : Int
  sys_country : String
  sys_sunrise : Int
  sys_sunset : Int
  collection_timestamp : Nat
  deriving DecidableEq

/-- Comparison key of `ORDER BY collection_timestamp ASC` and of
`df.sort_values("collection_timestamp")`. -/
def tsLe (a b : WeatherRow) : Prop :=
  a.collection_timestamp ≤ b.collection_timestamp

instance : DecidableRel tsLe := fun a b =>
  inferInstanceAs (Decidable (a.collection_timestamp ≤ b.collection_timestamp))

instance : IsTotal WeatherRow tsLe :=
  ⟨fun a b => Nat.le_total a.collection_timestamp b.collection_timestamp⟩

instance : IsTrans WeatherRow tsLe :=
  ⟨fun _ _ _ h1 h2 => Nat.le_trans h1 h2⟩

/-- Ascending stable sort by `collection_timestamp`, the embedding of both
`ORDER BY collection_timestamp ASC` and `df.sort_values(...)`. -/
def sort_values (rows : List WeatherRow) : List WeatherRow :=
  rows.insertionSort tsLe

/-- Python truthiness of the `city: str | None` argument in
`if city:` (`app.py` `load_data`): `None` and the empty string are falsy. -/
def cityTruthy : Option String → Bool
  | none => false
  | some c => !(c == "")

/-- The WHERE clause of `load_data`: `collection_timestamp BETWEEN :start
AND :end` (inclusive on both ends), with `AND city = :city` appended only
when the `city` argument is truthy. -/
def rowFilter (city : Option String) (startT endT : Nat) (r : WeatherRow) : Bool :=
  (decide (startT ≤ r.collection_timestamp) && decide (r.collection_timestamp ≤ endT)) &&
  (if cityTruthy city then r.city == city.getD "" else true)

/-- Embedding of `load_data` (`app.py` lines 55-85): filter the stored
table by the inclusive timestamp range and the optional city, return the
matches ordered ascending by `collection_timestamp`. -/
def load_data (table : List WeatherRow) (city : Option String) (startT endT : Nat) :
    List WeatherRow :=
  sort_values (table.filter (rowFilter city startT endT))

/-- Embedding of `load` / `df.to_sql(..., if_exists="append")`: an
append-only insert of the batch at the end of the table, no upsert and no
dedup. -/
def appendRows (table newRows : List WeatherRow) : List WeatherRow :=
  table ++ newRows

/-- The outcome of the dashboard's `main` after `load_data`: either the
explicit "No weather data found" warning state, or the dashboard rendered
around one latest row. -/
inductive DashboardState where
  | noData
  | dashboard (latest : WeatherRow)
  deriving DecidableEq

/-- Embedding of the read path of `main` (`app.py` lines 369-375): on an
empty frame emit the warning state and return; otherwise take
`df.sort_values("collection_timestamp").iloc[-1]` — the last element of
the ascending stable sort — as the latest row. -/
def mainView (df : List WeatherRow) : DashboardState :=
  match (sort_values df).getLast? with
  | none => .noData
  | some r => .dashboard r

/-- The 1-hour wall-clock bucket of an epoch-seconds timestamp, as
assigned by `.resample("1H")`. -/
def hourBucket (t : Nat) : Nat := t / 3600

/-- Embedding of the hourly aggregation of `render_hourly_chart`
(`app.py` lines 261-267): `resample("1H")` forms every 1-hour-aligned
bucket from the first to the last observed bucket, `.mean()` averages the
values falling in each bucket (an empty bucket yields NaN), and
`.dropna()` removes exactly the empty buckets.  Each emitted pair is
(bucket start in epoch seconds, mean of the values in the bucket). -/
def hourly_mean (rows : List (Nat × ℚ)) : List (Nat × ℚ) :=
  match (rows.map (fun r => hourBucket r.1)).min?, (rows.map (fun r => hourBucket r.1)).max? with
  | some lo, some hi =>
      (List.range' lo (hi + 1 - lo)).filterMap (fun h =>
        if ((rows.filter (fun r => hourBucket r.1 == h)).map Prod.snd).isEmpty then none
        else some (h * 3600,
          ((rows.filter (fun r => hourBucket r.1 == h)).map Prod.snd).sum /
            ((rows.filter (fun r => hourBucket r.1 == h)).map Prod.snd).length))
  | _, _ => []

/-- The temperature series `render_hourly_chart` resamples: the
`collection_timestamp`-indexed `temperature_c` column. -/
def temperatureSeries (df : List WeatherRow) : List (Nat × ℚ) :=
  df.map (fun r => (r.collection_timestamp, r.temperature_c))

/-- Embedding of `c_to_f` (`app.py` lines 87-88). -/
def c_to_f (value_c : ℚ) : ℚ :=
  value_c * 9.0 / 5.0 + 32.0

/-- The unit selection applied at render time (`app.py` line 93:
`temp_display = c_to_f(temp_c) if use_fahrenheit else temp_c`). -/
def to_display_unit (value_c : ℚ) (use_fahrenheit : Bool) : ℚ :=
  if use_fahrenheit then c_to_f value_c else value_c

/-- One column of the `CREATE TABLE` DDL: name, SQL type, NOT NULL flag. -/
structure ColumnDef where
  name : String
  sqlType : String
  notNull : Bool
  deriving DecidableEq

/-- The column list of `CREATE TABLE IF NOT EXISTS weather.weather_data`
(`weather_pipeline.py` lines 46-74), in DDL order. -/
def weather_data_columns : List ColumnDef :=
  [⟨"id", "SERIAL PRIMARY KEY", true⟩,
   ⟨"city", "VARCHAR(100)", true⟩,
   ⟨"temperature_K", "FLOAT", true⟩,
   ⟨"humidity", "FLOAT", true⟩,
   ⟨"thermal_sensation_K", "FLOAT", true⟩,
   ⟨"temp_min_K", "FLOAT", true⟩,
   ⟨"temp_max_K", "FLOAT", true⟩,
   ⟨"pressure", "FLOAT", false⟩,
   ⟨"wind_speed", "FLOAT", false⟩,
   ⟨"wind_direction", "FLOAT", false⟩,
   ⟨"latitude", "FLOAT", true⟩,
   ⟨"longitude", "FLOAT", true⟩,
   ⟨"temperature_C", "FLOAT", true⟩,
   ⟨"thermal_sensation_C", "FLOAT", true⟩,
   ⟨"temp_min_C", "FLOAT", true⟩,
   ⟨"temp_max_C", "FLOAT", true⟩,
   ⟨"weather_id", "INT", true⟩,
   ⟨"weather_main", "VARCHAR(100)", true⟩,
   ⟨"weather_description", "VARCHAR(255)", true⟩,
   ⟨"weather_icon", "VARCHAR(100)", true⟩,
   ⟨"sys_id", "INT", true⟩,
   ⟨"sys_country", "VARCHAR(100)", true⟩,
   ⟨"sys_sunrise", "TIMESTAMP", true⟩,
   ⟨"sys_sunset", "TIMESTAMP", true⟩,
   ⟨"collection_timestamp", "TIMESTAMP", true⟩]

/-- Storage-side catalog state: the list of schemas and the list of
tables keyed by (schema, table) with their column definitions.  The
storage engine is an external capability; `CREATE ... IF NOT EXISTS` is
its documented conditional-create semantics, modelled as an append
guarded by existence. -/
structure StorageState where
  schemas : List String
  tables : List ((String × String) × List ColumnDef)
  deriving DecidableEq

/-- Catalog lookup of a table definition by (schema, table) key. -/
def lookupTable (s : StorageState) (key : String × String) : Option (List ColumnDef) :=
  s.tables.lookup key

/-- Embedding of `_ensure_schema_exists` (`weather_pipeline.py` lines
33-42): execute `CREATE SCHEMA IF NOT EXISTS weather` — a no-op when the
schema exists, otherwise the schema is added. -/
def ensure_schema_exists (s : StorageState) : StorageState :=
  if "weather" ∈ s.schemas then s
  else { s with schemas := s.schemas ++ ["weather"] }

/-- Embedding of `_ensure_table_exists` (`weather_pipeline.py` lines
44-83): execute `CREATE TABLE IF NOT EXISTS weather.weather_data (...)` —
a no-op when the table exists (never dropping or altering it), otherwise
the table is created with `weather_data_columns`. -/
def ensure_table_exists (s : StorageState) : StorageState :=
  if (lookupTable s ("weather", "weather_data")).isSome then s
  else { s with tables := s.tables ++ [(("weather", "weather_data"), weather_data_columns)] }

/-- The provisioning sequence `load` runs before appending:
`_ensure_schema_exists(engine)` then `_ensure_table_exists(engine)`. -/
def provision (s : StorageState) : StorageState :=
  ensure_table_exists (ensure_schema_exists s)

/-- A concrete persisted row (field values from the spec's example
scenario) at a chosen collection timestamp, used to instantiate the
query-path theorems. -/
def mkRow (ts : Nat) : WeatherRow where
  city := "Rio de Janeiro"
  temperature_k := 300
  humidity := 80
  thermal_sensation_k := 299
  temp_min_k := 298
  temp_max_k := 301
  pressure := some 1012
  wind_speed := some 5.5
  wind_direction := some 120
  latitude := -22.9
  longitude := -43.2
  temperature_c := 26.85
  thermal_sensation_c := 25.85
  temp_min_c := 24.85
  temp_max_c := 27.85
  weather_id := 800
  weather_main := "Clear"
  weather_description := "clear sky"
  weather_icon := "https://openweathermap.org/img/wn/01d@2x.png"
  sys_id := 1
  sys_country := "BR"
  sys_sunrise := 1699989200
  sys_sunset := 1700029200
  collection_timestamp := ts

/-- The spec's example scenario observation, fully populated: every
column the pipeline reads is present and the condition list has exactly
one entry. -/
def rawExample : RawObservation where
  name := some "Rio de Janeiro"
  main_temp := some 300
  main_humidity := some 80
  main_feels_like := some 299
  main_temp_min := some 298
  main_temp_max := some 301
  main_pressure := some 1012
  wind_speed := some (11 / 2)
  wind_deg := some 120
  coord_lat := some (-229 / 10)
  coord_lon := some (-216 / 5)
  weather := some [⟨800, "Clear", "clear sky", "01d"⟩]
  sys_id := some 1
  sys_country := some "BR"
  sys_sunrise := some 1700000000
  sys_sunset := some 1700040000
  timezone := some (-10800)

/-- The example observation with the required `main.temp` column absent. -/
def rawMissingTemp : RawObservation :=
  { rawExample with main_temp := none }

/-- The example observation with the required `main.humidity` column
absent. -/
def rawMissingHumidity : RawObservation :=
  { rawExample with main_humidity := none }

/-- The example observation with both required coordinate columns
absent. -/
def rawMissingCoord : RawObservation :=
  { rawExample with coord_lat := none, coord_lon := none }

/-- The example observation with an empty weather-condition list. -/
def rawEmptyWeather : RawObservation :=
  { rawExample with weather := some [] }

/-- The frame `transform` produces from `rawExample` at wall clock 0. -/
def transformedExample : TransformedRow where
  city := some "Rio de Janeiro"
  temperature_k := some 300
  humidity := some 80
  thermal_sensation_k := some 299
  temp_min_k := some 298
  temp_max_k := some 301
  pressure := some 1012
  wind_speed := some (11 / 2)
  wind_direction := some 120
  latitude := some (-229 / 10)
  longitude := some (-216 / 5)
  weather_id := 800
  weather_main := "Clear"
  weather_description := "clear sky"
  weather_icon := "https://openweathermap.org/img/wn/01d@2x.png"
  sys_id := some 1
  sys_country := some "BR"
  sys_sunrise := 1700000000 + (-10800)
  sys_sunset := 1700040000 + (-10800)
  collection_timestamp := 0
  temperature_c := some (300 - 273.15)
  thermal_sensation_c := some (299 - 273.15)
  temp_min_c := some (298 - 273.15)
  temp_max_c := some (301 - 273.15)

/-- The partial frame `transform` produces from `rawMissingTemp`: the
temperature columns are silently absent. -/
def transformedMissingTemp : TransformedRow :=
  { transformedExample with temperature_k := none, temperature_c := none }

/-- The partial frame `transform` produces from `rawMissingHumidity`. -/
def transformedMissingHumidity : TransformedRow :=
  { transformedExample with humidity := none }

/-- The partial frame `transform` produces from `rawMissingCoord`. -/
def transformedMissingCoord : TransformedRow :=
  { transformedExample with latitude := none, longitude := none }

/-- A storage state holding one unrelated schema and table, used to
instantiate the provisioning theorem. -/
def sampleStorage : StorageState where
  schemas := ["other"]
  tables := [(("other", "t"), [])]

/-- Helper: the last element reported by `getLast?` is a member of the
list. -/
theorem getLast_mem_of_eq_some :
    ∀ (l : List WeatherRow) (m : WeatherRow), l.getLast? = some m → m ∈ l
  | [], _, h => by simp at h
  | [a], m, h => by
      simp [List.getLast?] at h
      simp [h]
  | a :: b :: l, m, h => by
      rw [List.getLast?_cons_cons] at h
      exact List.mem_cons_of_mem a (getLast_mem_of_eq_some (b :: l) m h)

/-- Helper: in a list sorted ascending by collection timestamp, every
element's timestamp is at most the last element's. -/
theorem sorted_getLast_le :
    ∀ (l : List WeatherRow), List.Sorted tsLe l → ∀ m, l.getLast? = some m →
      ∀ x ∈ l, x.collection_timestamp ≤ m.collection_timestamp
  | [], _, m, h => by simp at h
  | [a], _, m, h => by
      simp [List.getLast?] at h
      simp [← h]
  | a :: b :: l, hs, m, h => by
      rw [List.getLast?_cons_cons] at h
      rw [List.sorted_cons] at hs
      intro x hx
      rcases List.mem_cons.mp hx with rfl | hx
      · exact hs.1 m (getLast_mem_of_eq_some (b :: l) m h)
      · exact sorted_getLast_le (b :: l) hs.2 m h x hx

/-- C7: `to_display_unit` is the identity when the Fahrenheit flag is
false, and with the flag set maps 0°C to 32°F and 100°C to 212°F. -/
theorem c7_to_display_unit_spec :
    (∀ v : ℚ, to_display_unit v false = v) ∧
    to_display_unit 0 true = 32 ∧
    to_display_unit 100 true = 212 := by
  refine ⟨fun v => rfl, ?_, ?_⟩ <;> norm_num [to_display_unit, c_to_f]

/-- C10: `c_to_f` is strictly monotonically increasing, so toggling the
display unit never changes the relative order of displayed temperatures. -/
theorem c10_c_to_f_strict_mono (a b : ℚ) (h : a < b) : c_to_f a < c_to_f b := by
  unfold c_to_f
  have h95 : a * 9.0 / 5.0 < b * 9.0 / 5.0 := by
    rw [div_lt_div_iff_of_pos_right (by norm_num)]
    exact mul_lt_mul_of_pos_right h (by norm_num)
  linarith

/-- Witness for C10 at 0°C and 1°C. -/
theorem c10_c_to_f_strict_mono_witness : c_to_f 0 < c_to_f 1 :=
  c10_c_to_f_strict_mono 0 1 (by norm_num)

/-- C4: the dashboard read path renders the explicit no-data state on an
empty result (never an exception, since `mainView` is total), and on any
non-empty result it renders a latest row that belongs to the data and has
maximal `collection_timestamp`; the choice is deterministic because
`mainView` is a function. -/
theorem c4_latest_spec :
    mainView [] = DashboardState.noData ∧
    (∀ df : List WeatherRow, df ≠ [] → ∃ r, mainView df = DashboardState.dashboard r) ∧
    (∀ (df : List WeatherRow) (r : WeatherRow), mainView df = DashboardState.dashboard r →
      r ∈ df ∧ ∀ s ∈ df, s.collection_timestamp ≤ r.collection_timestamp) := by
  refine ⟨rfl, ?_, ?_⟩
  · intro df hne
    unfold mainView
    cases hlast : (sort_values df).getLast? with
    | none =>
        rw [List.getLast?_eq_none_iff] at hlast
        have : df = [] := by
          have hlen := (List.perm_insertionSort tsLe df).length_eq
          rw [show List.insertionSort tsLe df = [] from hlast] at hlen
          exact List.length_eq_zero.mp hlen.symm
        exact absurd this hne
    | some r => exact ⟨r, rfl⟩
  · intro df r h
    unfold mainView at h
    cases hlast : (sort_values df).getLast? with
    | none => rw [hlast] at h; exact absurd h (by simp)
    | some m =>
        rw [hlast] at h
        cases h
        constructor
        · exact (List.perm_insertionSort tsLe df).subset
            (getLast_mem_of_eq_some _ _ hlast)
        · intro s hs
          exact sorted_getLast_le (sort_values df) (List.sorted_insertionSort tsLe df) _
            hlast s ((List.perm_insertionSort tsLe df).mem_iff.mpr hs)

/-- Witness for C4 on a concrete two-row table given in descending order:
the latest row is selected and dominates both timestamps. -/
theorem c4_latest_spec_witness :
    (∃ r, mainView [mkRow 20, mkRow 10] = DashboardState.dashboard r) ∧
    (mkRow 20 ∈ [mkRow 20, mkRow 10] ∧
      ∀ s ∈ [mkRow 20, mkRow 10],
        s.collection_timestamp ≤ (mkRow 20).collection_timestamp) :=
  ⟨c4_latest_spec.2.1 [mkRow 20, mkRow 10] (List.cons_ne_nil _ _),
   c4_latest_spec.2.2 [mkRow 20, mkRow 10] (mkRow 20) rfl⟩

/-- C9: a `None` city and an empty-string city produce the same query (the
city filter is omitted for both, an empty string is not a city named "");
the result holds exactly the rows, of any city, whose collection timestamp
lies in the inclusive range, ordered ascending by collection timestamp. -/
theorem c9_empty_city_filter (table : List WeatherRow) (startT endT : Nat) :
    load_data table none startT endT = load_data table (some "") startT endT ∧
    (∀ r : WeatherRow, r ∈ load_data table (some "") startT endT ↔
      r ∈ table ∧ startT ≤ r.collection_timestamp ∧ r.collection_timestamp ≤ endT) ∧
    List.Sorted tsLe (load_data table (some "") startT endT) := by
  have hfilter : rowFilter (some "") startT endT = rowFilter none startT endT := by
    funext r
    simp [rowFilter, cityTruthy]
  refine ⟨by rw [load_data, load_data, hfilter], ?_, ?_⟩
  · intro r
    unfold load_data sort_values
    rw [List.mem_insertionSort, List.mem_filter, hfilter]
    simp [rowFilter, cityTruthy, and_assoc]
  · exact List.sorted_insertionSort tsLe _

/-- C8: appending the same row twice is accepted (append is total, no
dedup): both copies are in the table, and a range query whose inclusive
window contains their collection timestamp returns both. -/
theorem c8_duplicate_append (table : List WeatherRow) (r : WeatherRow) (startT endT : Nat)
    (h1 : startT ≤ r.collection_timestamp) (h2 : r.collection_timestamp ≤ endT) :
    (appendRows (appendRows table [r]) [r]).count r = table.count r + 2 ∧
    (load_data (appendRows (appendRows table [r]) [r]) none startT endT).count r =
      (load_data table none startT endT).count r + 2 := by
  have hp : rowFilter none startT endT r = true := by
    simp [rowFilter, cityTruthy, h1, h2]
  constructor
  · simp [appendRows, List.count_append]
  · unfold load_data sort_values
    rw [(List.perm_insertionSort tsLe _).count_eq, (List.perm_insertionSort tsLe _).count_eq]
    simp [appendRows, List.filter_append, List.count_append, hp]

/-- Witness for C8: the duplicated example row is counted twice both in
the table and in the [0, 100] range query. -/
theorem c8_duplicate_append_witness :
    (appendRows (appendRows [] [mkRow 10]) [mkRow 10]).count (mkRow 10) =
      ([] : List WeatherRow).count (mkRow 10) + 2 ∧
    (load_data (appendRows (appendRows [] [mkRow 10]) [mkRow 10]) none 0 100).count (mkRow 10) =
      (load_data [] none 0 100).count (mkRow 10) + 2 :=
  c8_duplicate_append [] (mkRow 10) 0 100 (by decide) (by decide)

/-- C2: on every valid raw observation `transform` succeeds and every
Celsius temperature field of the produced row is exactly the matching
Kelvin field minus 273.15, stored at full precision. -/
theorem c2_celsius_from_kelvin (now : Nat) (raw : RawObservation) (h : raw.valid = true) :
    ∃ row, transform now raw = Except.ok row ∧
      row.temperature_k = raw.main_temp ∧
      row.thermal_sensation_k = raw.main_feels_like ∧
      row.temp_min_k = raw.main_temp_min ∧
      row.temp_max_k = raw.main_temp_max ∧
      row.temperature_c = raw.main_temp.map (fun k => k - 273.15) ∧
      row.thermal_sensation_c = raw.main_feels_like.map (fun k => k - 273.15) ∧
      row.temp_min_c = raw.main_temp_min.map (fun k => k - 273.15) ∧
      row.temp_max_c = raw.main_temp_max.map (fun k => k - 273.15) := by
  unfold RawObservation.valid at h
  cases hw : raw.weather with
  | none => rw [hw] at h; simp at h
  | some l =>
    cases l with
    | nil => rw [hw] at h; simp at h
    | cons w ws =>
      cases hsr : raw.sys_sunrise with
      | none => rw [hsr] at h; simp at h
      | some sr =>
        cases hss : raw.sys_sunset with
        | none => rw [hss] at h; simp at h
        | some ss =>
          cases htz : raw.timezone with
          | none => rw [htz] at h; simp at h
          | some tz =>
            unfold transform
            rw [hw, hsr, hss, htz]
            exact ⟨_, rfl, rfl, rfl, rfl, rfl, rfl, rfl, rfl, rfl⟩

/-- Witness for C2 at the fully populated example observation. -/
theorem c2_celsius_from_kelvin_witness :
    ∃ row, transform 0 rawExample = Except.ok row ∧
      row.temperature_k = rawExample.main_temp ∧
      row.thermal_sensation_k = rawExample.main_feels_like ∧
      row.temp_min_k = rawExample.main_temp_min ∧
      row.temp_max_k = rawExample.main_temp_max ∧
      row.temperature_c = rawExample.main_temp.map (fun k => k - 273.15) ∧
      row.thermal_sensation_c = rawExample.main_feels_like.map (fun k => k - 273.15) ∧
      row.temp_min_c = rawExample.main_temp_min.map (fun k => k - 273.15) ∧
      row.temp_max_c = rawExample.main_temp_max.map (fun k => k - 273.15) :=
  c2_celsius_from_kelvin 0 rawExample (by decide)

/-- C5: whatever row `transform` produces stores sunrise as
`sunrise_epoch + utc_offset_seconds` and sunset as
`sunset_epoch + utc_offset_seconds` — the offset-shifted epoch itself,
not true UTC. -/
theorem c5_sun_events_offset_shift (now : Nat) (raw : RawObservation)
    (sr ss tz : Int) (row : TransformedRow)
    (hsr : raw.sys_sunrise = some sr) (hss : raw.sys_sunset = some ss)
    (htz : raw.timezone = some tz) (h : transform now raw = Except.ok row) :
    row.sys_sunrise = sr + tz ∧ row.sys_sunset = ss + tz := by
  unfold transform at h
  cases hw : raw.weather with
  | none => rw [hw] at h; simp at h
  | some l =>
    cases l with
    | nil => rw [hw] at h; simp at h
    | cons w ws =>
      rw [hw, hsr, hss, htz] at h
      cases h
      exact ⟨rfl, rfl⟩

/-- Witness for C5: the example observation's stored sun events are the
epoch seconds shifted by the (negative) Rio de Janeiro offset. -/
theorem c5_sun_events_offset_shift_witness :
    transformedExample.sys_sunrise = 1700000000 + (-10800) ∧
    transformedExample.sys_sunset = 1700040000 + (-10800) :=
  c5_sun_events_offset_shift 0 rawExample 1700000000 1700040000 (-10800)
    transformedExample rfl rfl rfl rfl

/-- C1 (amended): `transform` fails only when a column it indexes
directly is absent — the `weather` condition column (or an empty
condition list) and the `sys.sunrise` / `sys.sunset` / `timezone`
columns.  A missing temperature, humidity or coordinate column does not
make it fail: the `available_cols` filter silently omits the column and a
partial row is produced (and persisted to the clean CSV), leaving NOT
NULL enforcement to the database at load time. -/
theorem c1_missing_fields_silently_omitted :
    (∀ (now : Nat) (raw : RawObservation),
      raw.weather = none ∨ raw.weather = some [] →
      ∃ e, transform now raw = Except.error e) ∧
    (∀ (now : Nat) (raw : RawObservation) (row : TransformedRow),
      raw.main_temp = none → transform now raw = Except.ok row →
      row.temperature_k = none ∧ row.temperature_c = none) ∧
    (∀ (now : Nat) (raw : RawObservation) (row : TransformedRow),
      raw.main_humidity = none → transform now raw = Except.ok row →
      row.humidity = none) ∧
    (∀ (now : Nat) (raw : RawObservation) (row : TransformedRow),
      raw.coord_lat = none → raw.coord_lon = none → transform now raw = Except.ok row →
      row.latitude = none ∧ row.longitude = none) := by
  have okCase :
      ∀ (now : Nat) (raw : RawObservation) (row : TransformedRow),
        transform now raw = Except.ok row →
        row.temperature_k = raw.main_temp ∧ row.humidity = raw.main_humidity ∧
        row.latitude = raw.coord_lat ∧ row.longitude = raw.coord_lon ∧
        row.temperature_c = raw.main_temp.map (fun k => k - 273.15) := by
    intro now raw row h
    unfold transform at h
    cases hw : raw.weather with
    | none => rw [hw] at h; simp at h
    | some l =>
      cases l with
      | nil => rw [hw] at h; simp at h
      | cons w ws =>
        rw [hw] at h
        cases hsr : raw.sys_sunrise with
        | none => rw [hsr] at h; simp at h
        | some sr =>
          cases hss : raw.sys_sunset with
          | none => rw [hsr, hss] at h; simp at h
          | some ss =>
            cases htz : raw.timezone with
            | none => rw [hsr, hss, htz] at h; simp at h
            | some tz =>
              rw [hsr, hss, htz] at h
              cases h
              exact ⟨rfl, rfl, rfl, rfl, rfl⟩
  refine ⟨?_, ?_, ?_, ?_⟩
  · intro now raw hw
    rcases hw with hw | hw
    · exact ⟨.keyError, by unfold transform; rw [hw]⟩
    · exact ⟨.indexError, by unfold transform; rw [hw]⟩
  · intro now raw row hm h
    obtain ⟨h1, _, _, _, h5⟩ := okCase now raw row h
    rw [h1, h5, hm]
    exact ⟨rfl, rfl⟩
  · intro now raw row hm h
    obtain ⟨_, h2, _, _, _⟩ := okCase now raw row h
    rw [h2, hm]
  · intro now raw row hla hlo h
    obtain ⟨_, _, h3, h4, _⟩ := okCase now raw row h
    rw [h3, h4, hla, hlo]
    exact ⟨rfl, rfl⟩

/-- Witness for the amended C1: an empty condition list makes `transform`
error, and each of the concrete observations with a missing temperature,
humidity or coordinate column yields a partial row with that column
absent. -/
theorem c1_missing_fields_silently_omitted_witness :
    (∃ e, transform 0 rawEmptyWeather = Except.error e) ∧
    (transformedMissingTemp.temperature_k = none ∧
      transformedMissingTemp.temperature_c = none) ∧
    transformedMissingHumidity.humidity = none ∧
    (transformedMissingCoord.latitude = none ∧ transformedMissingCoord.longitude = none) :=
  ⟨c1_missing_fields_silently_omitted.1 0 rawEmptyWeather (Or.inr rfl),
   c1_missing_fields_silently_omitted.2.1 0 rawMissingTemp transformedMissingTemp rfl rfl,
   c1_missing_fields_silently_omitted.2.2.1 0 rawMissingHumidity transformedMissingHumidity
     rfl rfl,
   c1_missing_fields_silently_omitted.2.2.2 0 rawMissingCoord transformedMissingCoord
     rfl rfl rfl⟩

/-- Counterexample to C1 as stated: `rawMissingTemp` lacks the required
`main.temp` field, yet `transform` does not fail — it succeeds and
silently omits the temperature columns from the row it persists. -/
theorem c1_counterexample :
    rawMissingTemp.main_temp = none ∧
    transform 0 rawMissingTemp = Except.ok transformedMissingTemp ∧
    transformedMissingTemp.temperature_k = none ∧
    transformedMissingTemp.temperature_c = none :=
  ⟨rfl, rfl, rfl, rfl⟩

/-- Helper: a successful catalog lookup is preserved when more tables are
appended on the right. -/
theorem lookup_append_left_of_some :
    ∀ (l l2 : List ((String × String) × List ColumnDef)) (k : String × String)
      (d : List ColumnDef), l.lookup k = some d → (l ++ l2).lookup k = some d
  | [], _, _, _, h => by simp [List.lookup] at h
  | (a, b) :: l, l2, k, d, h => by
      rw [List.cons_append, List.lookup]
      rw [List.lookup] at h
      cases hk : k == a with
      | true => rw [hk] at h; exact h
      | false => rw [hk] at h; exact lookup_append_left_of_some l l2 k d h

/-- Helper: after appending an entry keyed `k`, looking `k` up succeeds. -/
theorem lookup_append_self_isSome :
    ∀ (l : List ((String × String) × List ColumnDef)) (k : String × String)
      (v : List ColumnDef), ((l ++ [(k, v)]).lookup k).isSome = true
  | [], k, v => by simp [List.lookup]
  | (a, b) :: l, k, v => by
      rw [List.cons_append, List.lookup]
      cases hk : k == a with
      | true => rfl
      | false => exact lookup_append_self_isSome l k v

/-- Helper: `_ensure_table_exists` never touches the schema list. -/
theorem ensure_table_exists_schemas (s : StorageState) :
    (ensure_table_exists s).schemas = s.schemas := by
  unfold ensure_table_exists
  split <;> rfl

/-- Helper: `_ensure_schema_exists` never touches the table catalog. -/
theorem ensure_schema_exists_tables (s : StorageState) :
    (ensure_schema_exists s).tables = s.tables := by
  unfold ensure_schema_exists
  split <;> rfl

/-- Helper: after provisioning, the `weather` schema exists. -/
theorem provision_schema_mem (s : StorageState) : "weather" ∈ (provision s).schemas := by
  unfold provision
  rw [ensure_table_exists_schemas]
  unfold ensure_schema_exists
  split
  · assumption
  · simp

/-- Helper: after provisioning, the `weather.weather_data` table exists. -/
theorem provision_table_isSome (s : StorageState) :
    (lookupTable (provision s) ("weather", "weather_data")).isSome = true := by
  unfold provision ensure_table_exists
  split
  · assumption
  · exact lookup_append_self_isSome _ _ _

/-- C6: provisioning is idempotent — the state after the second run is
the state after the first, so the second run adds no duplicate schema or
table — and it never drops or alters anything: every existing table keeps
its exact definition and every existing schema survives. -/
theorem c6_provision_idempotent :
    (∀ s : StorageState, provision (provision s) = provision s) ∧
    (∀ (s : StorageState) (key : String × String) (d : List ColumnDef),
      lookupTable s key = some d → lookupTable (provision s) key = some d) ∧
    (∀ (s : StorageState) (sch : String), sch ∈ s.schemas → sch ∈ (provision s).schemas) := by
  have hpres :
      ∀ (s : StorageState) (key : String × String) (d : List ColumnDef),
        lookupTable s key = some d → lookupTable (provision s) key = some d := by
    intro s key d h
    have h2 : lookupTable (ensure_schema_exists s) key = some d := by
      rw [lookupTable, ensure_schema_exists_tables]
      exact h
    unfold provision ensure_table_exists
    split
    · exact h2
    · exact lookup_append_left_of_some _ _ _ _ h2
  refine ⟨?_, hpres, ?_⟩
  · intro s
    have h1 : ensure_schema_exists (provision s) = provision s := by
      unfold ensure_schema_exists
      rw [if_pos (provision_schema_mem s)]
    have h2 : ensure_table_exists (provision s) = provision s := by
      unfold ensure_table_exists
      rw [if_pos (provision_table_isSome s)]
    show ensure_table_exists (ensure_schema_exists (provision s)) = provision s
    rw [h1, h2]
  · intro s sch h
    unfold provision
    rw [ensure_table_exists_schemas]
    unfold ensure_schema_exists
    split
    · exact h
    · exact List.mem_append_left _ h

/-- Witness for C6 on a concrete storage state holding an unrelated
schema and table: both survive provisioning unchanged. -/
theorem c6_provision_idempotent_witness :
    lookupTable (provision sampleStorage) ("other", "t") = some [] ∧
    "other" ∈ (provision sampleStorage).schemas :=
  ⟨c6_provision_idempotent.2.1 sampleStorage ("other", "t") [] rfl,
   c6_provision_idempotent.2.2 sampleStorage "other" (by simp [sampleStorage])⟩

/-- C3 (amended): every bucket `hourly_mean` emits has at least one
contributing observation (empty buckets are dropped, never emitted);
observations 90 minutes apart always land in different wall-clock hour
buckets; observations 10 minutes apart land in the same bucket or, when
they straddle a wall-clock hour boundary, in adjacent buckets. -/
theorem c3_hourly_buckets :
    (∀ (rows : List (Nat × ℚ)) (b : Nat × ℚ), b ∈ hourly_mean rows →
      ∃ r ∈ rows, hourBucket r.1 * 3600 = b.1) ∧
    (∀ t : Nat, hourBucket (t + 5400) ≠ hourBucket t) ∧
    (∀ t : Nat, hourBucket (t + 600) = hourBucket t ∨
      hourBucket (t + 600) = hourBucket t + 1) := by
  refine ⟨?_, ?_, ?_⟩
  · intro rows b hb
    unfold hourly_mean at hb
    cases hmin : (rows.map fun r => hourBucket r.1).min? with
    | none => rw [hmin] at hb; simp at hb
    | some lo =>
      cases hmax : (rows.map fun r => hourBucket r.1).max? with
      | none => rw [hmin, hmax] at hb; simp at hb
      | some hi =>
        rw [hmin, hmax] at hb
        obtain ⟨h, _, hfb⟩ := List.mem_filterMap.mp hb
        by_cases hvs : ((rows.filter fun r => hourBucket r.1 == h).map Prod.snd).isEmpty
        · rw [if_pos hvs] at hfb
          simp at hfb
        · rw [if_neg hvs] at hfb
          have hne : (rows.filter fun r => hourBucket r.1 == h) ≠ [] := by
            intro hnil
            rw [hnil] at hvs
            simp at hvs
          obtain ⟨r, hr⟩ := List.exists_mem_of_ne_nil _ hne
          obtain ⟨hrmem, hrb⟩ := List.mem_filter.mp hr
          refine ⟨r, hrmem, ?_⟩
          have hrbeq : hourBucket r.1 = h := by simpa using hrb
          cases hfb
          rw [hrbeq]
  · intro t
    unfold hourBucket
    have h36 : (t + 3600) / 3600 = t / 3600 + 1 := Nat.add_div_right t (by norm_num)
    have hle : (t + 3600) / 3600 ≤ (t + 5400) / 3600 := Nat.div_le_div_right (by omega)
    omega
  · intro t
    unfold hourBucket
    have hlo : t / 3600 ≤ (t + 600) / 3600 := Nat.div_le_div_right (by omega)
    have h36 : (t + 3600) / 3600 = t / 3600 + 1 := Nat.add_div_right t (by norm_num)
    have hhi : (t + 600) / 3600 ≤ (t + 3600) / 3600 := Nat.div_le_div_right (by omega)
    omega

/-- Witness for C3: the single observation 10 minutes into the epoch hour
contributes to the emitted bucket starting at 0; 0 and 5400 seconds fall
in different buckets; 0 and 600 seconds fall in the same or adjacent
buckets. -/
theorem c3_hourly_buckets_witness :
    (∃ r ∈ [((600 : Nat), (40 : ℚ))], hourBucket r.1 * 3600 = (0, (40 : ℚ)).1) ∧
    hourBucket (0 + 5400) ≠ hourBucket 0 ∧
    (hourBucket (0 + 600) = hourBucket 0 ∨ hourBucket (0 + 600) = hourBucket 0 + 1) :=
  ⟨c3_hourly_buckets.1 [(600, 40)] (0, 40) (by
      rw [show hourly_mean [(600, 40)] = [(0, 40)] from by
        unfold hourly_mean
        norm_num [hourBucket, List.min?, List.max?, List.range', List.filterMap]]
      exact List.mem_singleton.mpr rfl),
   c3_hourly_buckets.2.1 0,
   c3_hourly_buckets.2.2 0⟩

/-- Counterexample to C3 as stated: the observations at 3300 s (10:55
style, 55 minutes past the hour) and 3900 s are exactly 10 minutes apart
yet land in two different hourly buckets. -/
theorem c3_counterexample :
    3300 + 600 = 3900 ∧ hourBucket 3900 ≠ hourBucket 3300 := by
  decide
